import Mathlib

/-
Verification development for the HackerOne scope-harvesting script
(src/hackerone_fetch_domains.py). Python strings are modelled as `List Char`,
JSON values as the inductive `JVal`, Python exceptions as `PyErr`, and the
network and filesystem as explicit parameters. Each definition is a direct
translation of the corresponding Python function.
-/

/-- Python exception kinds relevant to this program. -/
inductive PyErr where
  | keyError
  | attributeError
  | typeError
  | ioError
  | jsonDecodeError
deriving DecidableEq

/-- Python `c in s` for a character and a string (as a character list). -/
def pyInChar (c : Char) (s : List Char) : Bool :=
  s.any (fun x => x == c)

/-- Python `s.split(sep)` for a single-character separator `sep`. -/
def pySplit (sep : Char) : List Char → List (List Char)
  | [] => [[]]
  | c :: rest =>
    if c = sep then [] :: pySplit sep rest
    else
      match pySplit sep rest with
      | [] => [[ c ]]
      | g :: gs => (c :: g) :: gs

/-- Python `s.split(sep)` for the two-character separator `sep ++ sep`
(non-overlapping, left to right). The only such separator in the source is
`"//"`, whose two characters are equal, so this covers `url.split('//')`. -/
def pySplitDouble (sep : Char) : List Char → List (List Char)
  | [] => [[]]
  | [c] => [[ c ]]
  | c :: c2 :: rest =>
    if c = sep ∧ c2 = sep then [] :: pySplitDouble sep rest
    else
      match pySplitDouble sep (c2 :: rest) with
      | [] => [[ c ]]
      | g :: gs => (c :: g) :: gs

/-- Python `str.lower` (the identifiers in play are ASCII). -/
def pyLower (s : List Char) : List Char := s.map Char.toLower

/-- The whitespace characters stripped by Python `str.strip()`. -/
def pyIsSpace (c : Char) : Bool :=
  c == ' ' || c == '\t' || c == '\n' || c == '\r' || c == '\x0b' || c == '\x0c'

/-- Python `s.strip()`. -/
def pyStrip (s : List Char) : List Char :=
  ((s.dropWhile pyIsSpace).reverse.dropWhile pyIsSpace).reverse

/-- The hostname normalisation in `extract_domains_from_program`:
`url.split('//')[-1].split('/')[0].lower().strip()`. -/
def normalize_identifier (url : List Char) : List Char :=
  pyStrip (pyLower ((pySplit '/' ((pySplitDouble '/' url).getLastD [])).headD []))

/-- Matcher for the regex fragment `.*\*`: some run of non-newline characters
followed by a literal `*` (Python `.` does not match a newline). -/
def matchDotStarStar : List Char → Bool
  | [] => false
  | c :: rest => c == '*' || (c != '\n' && matchDotStarStar rest)

/-- Matcher for the regex fragment `[^.]*\..*\*` (the continuation of the
first label): skip non-dot characters, then a literal dot, then `.*\*`. -/
def matchAfterLabel : List Char → Bool
  | [] => false
  | c :: rest => if c == '.' then matchDotStarStar rest else matchAfterLabel rest

/-- Matcher for the regex fragment `[^.]+\..*\*`: at least one non-dot
character, then a literal dot, then `.*\*`. -/
def matchLabelDotRest : List Char → Bool
  | [] => false
  | c :: rest => c != '.' && matchAfterLabel rest

/-- Python `re.match(r'^\*\.[^.]+\..*\*', s)` viewed as a Boolean test:
the string must begin with `*.`, then one or more non-dot characters, a dot,
any (non-newline) run, and another `*`; `re.match` anchors only at the start. -/
def reMatchWildcardTld (s : List Char) : Bool :=
  match s with
  | c0 :: c1 :: rest => c0 == '*' && c1 == '.' && matchLabelDotRest rest
  | _ => false

/-- The three mutually exclusive domain categories. -/
inductive Category where
  | standard
  | simple_wildcard
  | wildcard_tld
deriving DecidableEq

/-- Translation of `categorize_domain`. -/
def categorize_domain (domain : List Char) : Option Category :=
  if domain.isEmpty || !(pyInChar '.' domain) then none
  else
    let clean_domain := (pySplit ':' domain).headD []
    if reMatchWildcardTld clean_domain then some Category.wildcard_tld
    else if [ '*', '.' ].isPrefixOf clean_domain &&
            decide (3 ≤ (pySplit '.' clean_domain).length) &&
            !(pyInChar '*' ((pySplit '.' clean_domain).getLastD [])) then
      some Category.simple_wildcard
    else if !(pyInChar '*' clean_domain) then some Category.standard
    else none

/-- JSON values, as produced by `response.json()` and `json.load`. -/
inductive JVal where
  | null
  | bool (b : Bool)
  | num (n : Int)
  | str (s : String)
  | arr (elems : List JVal)
  | obj (fields : List (String × JVal))

/-- Python truthiness of a JSON value (`if data`, `if handle`, ...). -/
def truthy : JVal → Bool
  | JVal.null => false
  | JVal.bool b => b
  | JVal.num n => n != 0
  | JVal.str s => s.length != 0
  | JVal.arr xs => xs.length != 0
  | JVal.obj fs => fs.length != 0

/-- Python `v == lit` for a string literal `lit`: equality between a JSON
value and a string is `False` unless the value is that string. -/
def jvalEqStr (v : JVal) (lit : String) : Bool :=
  match v with
  | JVal.str s => s == lit
  | _ => false

/-- Python `v.get(key, dflt)`: a dictionary lookup with a default; calling
`.get` on a non-dictionary raises `AttributeError`. -/
def dictGet (v : JVal) (key : String) (dflt : JVal) : Except PyErr JVal :=
  match v with
  | JVal.obj fields => Except.ok ((fields.lookup key).getD dflt)
  | _ => Except.error PyErr.attributeError

/-- Python `v[key]` for a string key: raises `KeyError` when the key is
absent from a dictionary and `TypeError` on non-dictionary values. -/
def dictGetItem (v : JVal) (key : String) : Except PyErr JVal :=
  match v with
  | JVal.obj fields =>
    match fields.lookup key with
    | some x => Except.ok x
    | none => Except.error PyErr.keyError
  | _ => Except.error PyErr.typeError

/-- Python iteration (`for x in v`, `list.extend(v)`): arrays yield their
elements, strings their one-character strings, dictionaries their keys;
other values raise `TypeError`. -/
def pyIterate : JVal → Except PyErr (List JVal)
  | JVal.arr xs => Except.ok xs
  | JVal.str s => Except.ok (s.data.map fun c => JVal.str (String.mk [c]))
  | JVal.obj fs => Except.ok (fs.map fun p => JVal.str p.1)
  | _ => Except.error PyErr.typeError

/-- Substring test on character lists (`needle in haystack`). -/
def listHasSub (needle : List Char) : List Char → Bool
  | [] => needle.isEmpty
  | c :: rest => needle.isPrefixOf (c :: rest) || listHasSub needle rest

/-- Python `key in v`: key test for dictionaries, substring test for
strings, membership for arrays; `TypeError` otherwise. -/
def pyInStr (key : String) : JVal → Except PyErr Bool
  | JVal.obj fields => Except.ok (fields.lookup key).isSome
  | JVal.str s => Except.ok (listHasSub key.data s.data)
  | JVal.arr xs => Except.ok (xs.any (fun x => jvalEqStr x key))
  | _ => Except.error PyErr.typeError

/-- The per-program dictionary of category sets built by
`extract_domains_from_program` and aggregated by `main`. -/
structure CategorySets where
  standard : Finset (List Char)
  simple_wildcard : Finset (List Char)
  wildcard_tld : Finset (List Char)
deriving DecidableEq

/-- The dictionary `{'standard': set(), 'simple_wildcard': set(), 'wildcard_tld': set()}`. -/
def emptyCategorySets : CategorySets := ⟨∅, ∅, ∅⟩

/-- `domains[category].add(domain)`. -/
def CategorySets.add (s : CategorySets) (cat : Category) (d : List Char) : CategorySets :=
  match cat with
  | Category.standard => { s with standard := insert d s.standard }
  | Category.simple_wildcard => { s with simple_wildcard := insert d s.simple_wildcard }
  | Category.wildcard_tld => { s with wildcard_tld := insert d s.wildcard_tld }

/-- The body of the `for scope in data['data']` loop in
`extract_domains_from_program`, for one scope entry. -/
def processScope (acc : CategorySets) (scope : JVal) : Except PyErr CategorySets :=
  match dictGet scope "attributes" (JVal.obj []) with
  | Except.error e => Except.error e
  | Except.ok sAttrs =>
    match dictGet sAttrs "asset_type" JVal.null with
    | Except.error e => Except.error e
    | Except.ok assetType =>
      if jvalEqStr assetType "URL" then
        match dictGetItem scope "attributes" with
        | Except.error e => Except.error e
        | Except.ok sAttrs2 =>
          match dictGetItem sAttrs2 "asset_identifier" with
          | Except.error e => Except.error e
          | Except.ok idVal =>
            match idVal with
            | JVal.str u =>
              let domain := normalize_identifier u.data
              if domain.isEmpty then Except.ok acc
              else
                match categorize_domain domain with
                | some cat => Except.ok (acc.add cat domain)
                | none => Except.ok acc
            | _ => Except.error PyErr.attributeError
      else Except.ok acc

/-- The `for scope in data['data']` loop. -/
def processScopes : List JVal → CategorySets → Except PyErr CategorySets
  | [], acc => Except.ok acc
  | scope :: rest, acc =>
    match processScope acc scope with
    | Except.error e => Except.error e
    | Except.ok acc2 => processScopes rest acc2

/-- Translation of `extract_domains_from_program`. The network is made
explicit: `resp` is the value returned by `make_api_request` for the
structured-scopes endpoint (`none` models a `None` result). -/
def extract_domains_from_program (program : JVal) (resp : Option JVal) :
    Except PyErr CategorySets :=
  match dictGet program "attributes" (JVal.obj []) with
  | Except.error e => Except.error e
  | Except.ok pAttrs =>
    match dictGet pAttrs "handle" JVal.null with
    | Except.error e => Except.error e
    | Except.ok handle =>
      if truthy handle = false then Except.ok emptyCategorySets
      else
        match resp with
        | none => Except.ok emptyCategorySets
        | some data =>
          if truthy data = false then Except.ok emptyCategorySets
          else
            match dictGet data "data" JVal.null with
            | Except.error e => Except.error e
            | Except.ok dd =>
              if truthy dd = false then Except.ok emptyCategorySets
              else
                match dictGetItem data "data" with
                | Except.error e => Except.error e
                | Except.ok dd2 =>
                  match pyIterate dd2 with
                  | Except.error e => Except.error e
                  | Except.ok entries => processScopes entries emptyCategorySets

instance : DecidableEq (Except PyErr CategorySets)
  | Except.ok x, Except.ok y =>
    match decEq x y with
    | isTrue h => isTrue (congrArg Except.ok h)
    | isFalse h => isFalse (fun hh => h (Except.ok.inj hh))
  | Except.error x, Except.error y =>
    match decEq x y with
    | isTrue h => isTrue (congrArg Except.error h)
    | isFalse h => isFalse (fun hh => h (Except.error.inj hh))
  | Except.ok _, Except.error _ => isFalse (fun hh => Except.noConfusion hh)
  | Except.error _, Except.ok _ => isFalse (fun hh => Except.noConfusion hh)

/-- A program record carrying a handle, used as a concrete test fixture. -/
def acmeProgram : JVal :=
  JVal.obj [ ( "attributes", JVal.obj [ ( "handle", JVal.str "acme") ]) ]

/-- A structured-scopes response with one URL asset whose identifier carries
scheme, mixed case, a port and a path. -/
def urlScopeResp : JVal :=
  JVal.obj [ ( "data", JVal.arr
    [ JVal.obj [ ( "attributes", JVal.obj
        [ ( "asset_type", JVal.str "URL"),
          ( "asset_identifier", JVal.str "https://Foo.EXAMPLE.com:443/path") ]) ] ]) ]

/-- A structured-scopes response with one URL asset missing the
`asset_identifier` field. -/
def noIdScopeResp : JVal :=
  JVal.obj [ ( "data", JVal.arr
    [ JVal.obj [ ( "attributes", JVal.obj
        [ ( "asset_type", JVal.str "URL") ]) ] ]) ]

/-- Configuration constants of the script. -/
def MAX_REQUESTS_PER_MINUTE : Nat := 600

/-- `RATE_LIMIT_DELAY = 60 / MAX_REQUESTS_PER_MINUTE` (a Python float; exact
as a rational). -/
def RATE_LIMIT_DELAY : ℚ := 60 / (MAX_REQUESTS_PER_MINUTE : ℚ)

/-- `MAX_RETRIES = 3`. -/
def MAX_RETRIES : Nat := 3

/-- `PAGE_SIZE = 100`. -/
def PAGE_SIZE : Nat := 100

/-- `CACHE_EXPIRY_DAYS = 30`. -/
def CACHE_EXPIRY_DAYS : Nat := 30

/-- `Semaphore(MAX_REQUESTS_PER_MINUTE // 60)`: the number of slots the
admission semaphore is created with. -/
def request_semaphore_capacity : Nat := MAX_REQUESTS_PER_MINUTE / 60

/-- The outcome the network produces for one issued request: a response with
a status code, an optional parsed `Retry-After` header (the API sends a
non-negative integer) and an optional decoded JSON body (`none` models a
body on which `response.json()` raises), or a network-level exception
(timeout, connection error). -/
inductive HttpOutcome where
  | resp (code : Nat) (retryAfter : Option Nat) (body : Option JVal)
  | netErr

/-- Observable events of one `make_api_request` call: semaphore traffic,
issued requests (numbered in order) and `time.sleep` calls (seconds). -/
inductive Event where
  | semAcquire
  | semRelease
  | httpRequest (idx : Nat)
  | sleep (seconds : ℚ)
deriving DecidableEq

/-- True exactly on the two semaphore events. -/
def isSemEvent : Event → Bool
  | Event.semAcquire => true
  | Event.semRelease => true
  | _ => false

/-- The `for attempt in range(MAX_RETRIES)` loop of `make_api_request`.
`net i` is the outcome of the `i`-th request issued by this call, `reqIdx`
the index of the next request, `attempt` the current loop index and `rem`
the remaining loop iterations (initially `MAX_RETRIES`). Returns the result
(`none` models Python `None`) and the list of emitted events. A 429 response
sleeps the `Retry-After` value (default 10) and re-enters the loop via
`continue`; a caught exception (network error, or a 200 body that fails to
decode) sleeps `RATE_LIMIT_DELAY * (attempt + 1)` and re-enters the loop;
a non-200 status below 400 falls through the `if` chain and re-enters the
loop without sleeping. -/
def apiAttempts (net : Nat → HttpOutcome) : Nat → Nat → Nat → Option JVal × List Event
  | _, _, 0 => (none, [])
  | reqIdx, attempt, rem + 1 =>
    match net reqIdx with
    | HttpOutcome.netErr =>
      let r := apiAttempts net (reqIdx + 1) (attempt + 1) rem
      (r.1, Event.httpRequest reqIdx ::
            Event.sleep (RATE_LIMIT_DELAY * ((attempt : ℚ) + 1)) :: r.2)
    | HttpOutcome.resp code retryAfter body =>
      if code = 200 then
        match body with
        | some b => (some b, [ Event.httpRequest reqIdx ])
        | none =>
          let r := apiAttempts net (reqIdx + 1) (attempt + 1) rem
          (r.1, Event.httpRequest reqIdx ::
                Event.sleep (RATE_LIMIT_DELAY * ((attempt : ℚ) + 1)) :: r.2)
      else if code = 429 then
        let r := apiAttempts net (reqIdx + 1) (attempt + 1) rem
        (r.1, Event.httpRequest reqIdx ::
              Event.sleep ((retryAfter.getD 10 : Nat) : ℚ) :: r.2)
      else if 400 ≤ code then
        (none, [ Event.httpRequest reqIdx ])
      else
        let r := apiAttempts net (reqIdx + 1) (attempt + 1) rem
        (r.1, Event.httpRequest reqIdx :: r.2)

/-- Translation of `make_api_request`: the `with request_semaphore:` block
acquires one slot, runs the attempt loop and releases the slot on every
exit path. -/
def make_api_request (net : Nat → HttpOutcome) : Option JVal × List Event :=
  let r := apiAttempts net 0 0 MAX_RETRIES
  (r.1, Event.semAcquire :: r.2 ++ [ Event.semRelease ])

/-- Modelled from the spec: the request loop of section 4.2 in which an HTTP
429 response retries the same request without counting against the 3-attempt
budget (only network-level failures advance `attempt`). The spec gives 429
handling unbounded patience, so `fuel` bounds the total number of requests
considered; it is irrelevant once large enough for a given network. -/
def apiAttemptsSpec (net : Nat → HttpOutcome) : Nat → Nat → Nat → Option JVal
  | _, _, 0 => none
  | reqIdx, attempt, fuel + 1 =>
    if MAX_RETRIES ≤ attempt then none
    else
      match net reqIdx with
      | HttpOutcome.netErr => apiAttemptsSpec net (reqIdx + 1) (attempt + 1) fuel
      | HttpOutcome.resp code _ body =>
        if code = 200 then body
        else if code = 429 then apiAttemptsSpec net (reqIdx + 1) attempt fuel
        else none

/-- The cache file as `fetch_all_programs` sees it: whether it exists, its
modification time (seconds), and the outcome of `open` plus `json.load`. -/
structure Fs where
  cachePresent : Bool
  cacheMtime : Int
  cacheRead : Except PyErr JVal

/-- Translation of `is_cache_valid`: the file exists and
`now - mtime < timedelta(days=CACHE_EXPIRY_DAYS)`, in seconds. -/
def is_cache_valid (present : Bool) (now mtime : Int) : Bool :=
  present && decide (now - mtime < (CACHE_EXPIRY_DAYS : Int) * 86400)

/-- `'links' in data and 'next' in data['links']`. -/
def hasNextLink (data : JVal) : Except PyErr Bool :=
  match pyInStr "links" data with
  | Except.error e => Except.error e
  | Except.ok false => Except.ok false
  | Except.ok true =>
    match dictGetItem data "links" with
    | Except.error e => Except.error e
    | Except.ok links => pyInStr "next" links

/-- The `while True` pagination loop of `fetch_all_programs`. `pages n` is
the value `make_api_request` returns for page number `n` (`none` models a
failed page). `fuel` bounds the number of iterations considered (the result
is `none` when it runs out); `programs` and `reqs` accumulate the collected
programs and the page numbers requested so far. -/
def fetchLoop (pages : Nat → Option JVal) :
    Nat → Nat → List JVal → List Nat → Option (Except PyErr (List JVal) × List Nat)
  | 0, _, _, _ => none
  | fuel + 1, page, programs, reqs =>
    let reqs2 := reqs ++ [ page ]
    match pages page with
    | none => some (Except.ok programs, reqs2)
    | some data =>
      if truthy data = false then some (Except.ok programs, reqs2)
      else
        match dictGet data "data" JVal.null with
        | Except.error e => some (Except.error e, reqs2)
        | Except.ok dd =>
          if truthy dd = false then some (Except.ok programs, reqs2)
          else
            match dictGetItem data "data" with
            | Except.error e => some (Except.error e, reqs2)
            | Except.ok dd2 =>
              match pyIterate dd2 with
              | Except.error e => some (Except.error e, reqs2)
              | Except.ok items =>
                match hasNextLink data with
                | Except.error e => some (Except.error e, reqs2)
                | Except.ok true => fetchLoop pages fuel (page + 1) (programs ++ items) reqs2
                | Except.ok false => some (Except.ok (programs ++ items), reqs2)

/-- The network path of `fetch_all_programs`: paginate from page 1, then
write the accumulated list to the cache file (`json.dump` followed by
`os.utime`, setting the modification time to `now`) and return it. An
exception escaping the loop propagates and leaves the cache untouched. -/
def fetchFresh (fs : Fs) (now : Int) (pages : Nat → Option JVal) (fuel : Nat) :
    Option (Except PyErr JVal × Fs × List Nat) :=
  match fetchLoop pages fuel 1 [] [] with
  | none => none
  | some (Except.error e, reqs) => some (Except.error e, fs, reqs)
  | some (Except.ok programs, reqs) =>
    some (Except.ok (JVal.arr programs),
          { cachePresent := true, cacheMtime := now,
            cacheRead := Except.ok (JVal.arr programs) }, reqs)

/-- Translation of `fetch_all_programs`: on a valid cache it returns the
outcome of `open` plus `json.load` directly (with no requests issued);
otherwise it refetches. Returns the result, the cache file state after the
call and the page numbers requested. -/
def fetch_all_programs (fs : Fs) (now : Int) (pages : Nat → Option JVal) (fuel : Nat) :
    Option (Except PyErr JVal × Fs × List Nat) :=
  if is_cache_valid fs.cachePresent now fs.cacheMtime then
    some (fs.cacheRead, fs, [])
  else fetchFresh fs now pages fuel

/-- The merge `all_domains[category].update(domains[category])` executed by
`main` for each completed task, for all three categories. -/
def mergeSets (a b : CategorySets) : CategorySets :=
  ⟨a.standard ∪ b.standard,
   a.simple_wildcard ∪ b.simple_wildcard,
   a.wildcard_tld ∪ b.wildcard_tld⟩

/-- The aggregation in `main`: per-program results, in completion order,
merged into the initially empty global sets. -/
def aggregate (results : List CategorySets) : CategorySets :=
  results.foldl mergeSets emptyCategorySets

/-- Program records for the stub pages (their content is irrelevant to the
paginator, which only collects them). -/
def stubItems1 : List JVal := (List.range 100).map fun i => JVal.num i

/-- Program records of the second stub page. -/
def stubItems2 : List JVal := (List.range 37).map fun i => JVal.num (100 + i)

/-- First stub page: 100 programs and a `links.next` field. -/
def stubPage1 : JVal :=
  JVal.obj [ ( "data", JVal.arr stubItems1),
             ( "links", JVal.obj [ ( "next", JVal.str "page2") ]) ]

/-- Second stub page: 37 programs and no `links` field. -/
def stubPage2 : JVal :=
  JVal.obj [ ( "data", JVal.arr stubItems2) ]

/-- The stub API of the end-to-end pagination scenario. -/
def stubPages : Nat → Option JVal := fun n =>
  if n = 1 then some stubPage1 else if n = 2 then some stubPage2 else none

/-- An absent cache file. -/
def fsAbsent : Fs :=
  { cachePresent := false, cacheMtime := 0, cacheRead := Except.error PyErr.ioError }

/-- A sample per-program result. -/
def sampleSetsA : CategorySets := ⟨{ ( "a.example.com").data }, ∅, ∅⟩

/-- Another sample per-program result. -/
def sampleSetsB : CategorySets :=
  ⟨{ ( "b.example.com").data }, { ( "*.b.example.com").data }, ∅⟩

/-- The network of the C2 scenario: request 0 is rate limited with
`Retry-After: 3`, requests 1 and 2 hit network errors, request 3 (which the
code never issues) would succeed. -/
def c2Net : Nat → HttpOutcome := fun i =>
  if i = 0 then HttpOutcome.resp 429 (some 3) none
  else if i = 3 then HttpOutcome.resp 200 none (some (JVal.str "ok"))
  else HttpOutcome.netErr

/-- A program record shaped as the extractor expects where it reads it:
a dictionary whose `attributes` value, when present, is a dictionary. -/
def programOk : JVal → Bool
  | JVal.obj fields =>
    match fields.lookup "attributes" with
    | none => true
    | some (JVal.obj _) => true
    | some _ => false
  | _ => false

/-- A scope entry the extractor can process without raising: a dictionary
whose `attributes` value, when present, is a dictionary carrying a string
`asset_identifier` whenever its `asset_type` equals `URL`. -/
def scopeEntryOk : JVal → Bool
  | JVal.obj fields =>
    match fields.lookup "attributes" with
    | none => true
    | some (JVal.obj af) =>
      if jvalEqStr ((af.lookup "asset_type").getD JVal.null) "URL" then
        match af.lookup "asset_identifier" with
        | some (JVal.str _) => true
        | _ => false
      else true
    | some _ => false
  | _ => false

/-- A structured-scopes response the extractor can process without raising:
`None`, a falsy value, a dictionary with a falsy or missing `data` value, or
a dictionary whose `data` is an array of processable scope entries. -/
def respOk : Option JVal → Bool
  | none => true
  | some d =>
    if truthy d = false then true
    else
      match d with
      | JVal.obj fields =>
        if truthy ((fields.lookup "data").getD JVal.null) = false then true
        else
          match (fields.lookup "data").getD JVal.null with
          | JVal.arr xs => xs.all scopeEntryOk
          | _ => false
      | _ => false

/-- A cache file that is present and fresh but whose content fails to
decode. -/
def fsFreshBad : Fs :=
  { cachePresent := true, cacheMtime := 1000, cacheRead := Except.error PyErr.jsonDecodeError }

/-- A cache file that is present, fresh and decodes to an empty list. -/
def fsFreshOk : Fs :=
  { cachePresent := true, cacheMtime := 0, cacheRead := Except.ok (JVal.arr []) }

/-- A stub API whose every page request fails. -/
def wPagesNone : Nat → Option JVal := fun _ => none

/-- A stub API returning an empty dictionary (falsy) on every page. -/
def wPagesFalsy : Nat → Option JVal := fun _ => some (JVal.obj [])

/-- A stub API returning an empty `data` array on every page. -/
def wPagesEmptyData : Nat → Option JVal := fun _ => some (JVal.obj [ ( "data", JVal.arr []) ])

/-- A stub API returning one program and no `links` field. -/
def wPagesNoNext : Nat → Option JVal :=
  fun _ => some (JVal.obj [ ( "data", JVal.arr [ JVal.num 5 ]) ])

/-- A stub API returning one program and a `links.next` field on every
page. -/
def wPagesWithNext : Nat → Option JVal :=
  fun _ => some (JVal.obj [ ( "data", JVal.arr [ JVal.num 7 ]),
                            ( "links", JVal.obj [ ( "next", JVal.str "n") ]) ])

/-- A network whose very first page request already fails. -/
def pagesFailFirst : Nat → Option JVal := fun _ => none

theorem mergeSets_comm (a b : CategorySets) : mergeSets a b = mergeSets b a := by
  cases a; cases b
  simp [mergeSets, Finset.union_comm]

theorem mergeSets_assoc (a b c : CategorySets) :
    mergeSets (mergeSets a b) c = mergeSets a (mergeSets b c) := by
  cases a; cases b; cases c
  simp [mergeSets, Finset.union_assoc]

theorem mergeSets_self (a : CategorySets) : mergeSets a a = a := by
  cases a
  simp [mergeSets]

theorem mergeSets_right_comm (a b c : CategorySets) :
    mergeSets (mergeSets a b) c = mergeSets (mergeSets a c) b := by
  rw [mergeSets_assoc, mergeSets_assoc, mergeSets_comm b c]

theorem foldl_mergeSets_perm {l₁ l₂ : List CategorySets} (h : l₁.Perm l₂) :
    ∀ init, l₁.foldl mergeSets init = l₂.foldl mergeSets init := by
  induction h with
  | nil => intro init; rfl
  | cons x h ih => intro init; simp only [List.foldl_cons]; exact ih _
  | swap x y l => intro init; simp only [List.foldl_cons]; rw [mergeSets_right_comm]
  | trans h1 h2 ih1 ih2 => intro init; rw [ih1, ih2]

/-- C7: for any fixed collection of per-program category-set results, merging
them into the global result sets via set union yields identical final sets
for every permutation of the completion order, and the merge operation is
commutative, associative and idempotent. -/
theorem aggregate_order_independent :
    (∀ l₁ l₂ : List CategorySets, l₁.Perm l₂ → aggregate l₁ = aggregate l₂) ∧
    (∀ a b, mergeSets a b = mergeSets b a) ∧
    (∀ a b c, mergeSets (mergeSets a b) c = mergeSets a (mergeSets b c)) ∧
    (∀ a, mergeSets a a = a) :=
  ⟨fun _ _ h => foldl_mergeSets_perm h _, mergeSets_comm, mergeSets_assoc, mergeSets_self⟩

/-- Witness for C7: the two completion orders of two concrete per-program
results aggregate to the same global sets. -/
theorem aggregate_order_independent_witness :
    aggregate [ sampleSetsA, sampleSetsB ] = aggregate [ sampleSetsB, sampleSetsA ] :=
  aggregate_order_independent.1 [ sampleSetsA, sampleSetsB ] [ sampleSetsB, sampleSetsA ]
    (List.Perm.swap sampleSetsB sampleSetsA [])

/-- C9: `is_cache_valid` holds exactly when the file exists and `now` minus
its modification time is strictly below 30 days (2592000 seconds); one
second inside the boundary is valid, one second past it is invalid. -/
theorem is_cache_valid_characterization (present : Bool) (now mtime : Int) :
    (is_cache_valid present now mtime = true ↔
      (present = true ∧ now - mtime < (CACHE_EXPIRY_DAYS : Int) * 86400)) ∧
    (CACHE_EXPIRY_DAYS : Int) * 86400 = 2592000 ∧
    is_cache_valid true 2591999 0 = true ∧
    is_cache_valid true 2592001 0 = false := by
  refine ⟨?_, by decide, by decide, by decide⟩
  simp [is_cache_valid]

theorem apiAttempts_no_sem (net : Nat → HttpOutcome) :
    ∀ rem reqIdx attempt, (apiAttempts net reqIdx attempt rem).2.filter isSemEvent = []
  | 0, _, _ => rfl
  | rem + 1, reqIdx, attempt => by
    have ih := apiAttempts_no_sem net rem (reqIdx + 1) (attempt + 1)
    unfold apiAttempts
    cases net reqIdx with
    | netErr => simp [isSemEvent, ih]
    | resp code retryAfter body =>
      by_cases h200 : code = 200
      · simp only [h200, if_true]
        cases body with
        | some b => simp [isSemEvent]
        | none => simp [isSemEvent, ih]
      · by_cases h429 : code = 429
        · simp [h200, h429, isSemEvent, ih]
        · by_cases h400 : 400 ≤ code
          · simp [h200, h429, h400, isSemEvent]
          · simp [h200, h429, h400, isSemEvent, ih]

/-- C8: the admission semaphore is created with
`MAX_REQUESTS_PER_MINUTE // 60 = 10` slots, and every `make_api_request`
call, whatever the network does (failures and caught exceptions included),
acquires exactly one slot, releases exactly one slot, acquires before its
first request and releases after its last event. -/
theorem semaphore_capacity_and_balance (net : Nat → HttpOutcome) :
    request_semaphore_capacity = MAX_REQUESTS_PER_MINUTE / 60 ∧
    request_semaphore_capacity = 10 ∧
    (make_api_request net).2.filter isSemEvent = [ Event.semAcquire, Event.semRelease ] ∧
    (make_api_request net).2.head? = some Event.semAcquire ∧
    (make_api_request net).2.getLast? = some Event.semRelease := by
  refine ⟨rfl, rfl, ?_, rfl, ?_⟩
  · simp [make_api_request, List.filter_append, apiAttempts_no_sem net, isSemEvent]
  · show (Event.semAcquire :: ((apiAttempts net 0 0 MAX_RETRIES).2 ++ [ Event.semRelease ])).getLast? =
      some Event.semRelease
    rw [← List.cons_append, List.getLast?_append_cons]
    rfl

theorem pySplit_ne_nil (sep : Char) (s : List Char) : pySplit sep s ≠ [] := by
  cases s with
  | nil => simp [pySplit]
  | cons c rest =>
    by_cases h : c = sep
    · simp [pySplit, h]
    · cases h2 : pySplit sep rest <;> simp [pySplit, h, h2]

theorem pySplit_head_prefix (sep : Char) (s : List Char) :
    ∃ t, (pySplit sep s).headD [] ++ t = s := by
  induction s with
  | nil => exact ⟨[], rfl⟩
  | cons c rest ih =>
    by_cases h : c = sep
    · exact ⟨c :: rest, by simp [pySplit, h]⟩
    · obtain ⟨t, ht⟩ := ih
      cases h2 : pySplit sep rest with
      | nil => exact absurd h2 (pySplit_ne_nil sep rest)
      | cons g gs =>
        rw [h2] at ht
        simp only [List.headD_cons] at ht
        exact ⟨t, by simp [pySplit, h, h2, List.cons_append, ht]⟩

/-- C5 (amended): whenever the string left of the first `:` (the
port-stripped form that `categorize_domain` computes) matches the pattern
`*.` + one-or-more non-dot characters + `.` + anything + `*`, the function
returns `wildcard_tld` and not `simple_wildcard`: the wildcard-TLD rule is
checked before the leading-wildcard rule. On the raw input string the
quantification fails, see the counterexample. -/
theorem categorize_wildcard_tld_precedence (domain : List Char)
    (h : reMatchWildcardTld ((pySplit ':' domain).headD []) = true) :
    categorize_domain domain = some Category.wildcard_tld ∧
    categorize_domain domain ≠ some Category.simple_wildcard := by
  have hshape : ∃ c0 c1 rest,
      (pySplit ':' domain).headD [] = c0 :: c1 :: rest ∧ c0 = '*' ∧ c1 = '.' := by
    cases hc : (pySplit ':' domain).headD [] with
    | nil => rw [hc] at h; exact absurd h (by simp [reMatchWildcardTld])
    | cons c0 tail =>
      cases tail with
      | nil => rw [hc] at h; exact absurd h (by simp [reMatchWildcardTld])
      | cons c1 rest =>
        rw [hc] at h
        simp only [reMatchWildcardTld, Bool.and_eq_true, beq_iff_eq] at h
        exact ⟨c0, c1, rest, rfl, h.1.1, h.1.2⟩
  obtain ⟨c0, c1, rest, hc, hc0, hc1⟩ := hshape
  obtain ⟨t, ht⟩ := pySplit_head_prefix ':' domain
  rw [hc] at ht
  subst hc0
  subst hc1
  have hdom : domain = '*' :: '.' :: (rest ++ t) := by
    rw [← ht]
    simp
  have hne : domain.isEmpty = false := by rw [hdom]; rfl
  have hdot : pyInChar '.' domain = true := by
    rw [hdom]
    simp [pyInChar]
  have hmain : categorize_domain domain = some Category.wildcard_tld := by
    have h2 : reMatchWildcardTld ((pySplit ':' domain).head?.getD []) = true := by
      simpa using h
    simp [categorize_domain, hne, hdot, h2]
  exact ⟨hmain, by rw [hmain]; simp⟩

/-- Witness for C5: the pattern example from the spec is classified
`wildcard_tld`. -/
theorem categorize_wildcard_tld_precedence_witness :
    categorize_domain ( "*.a.*").data = some Category.wildcard_tld ∧
    categorize_domain ( "*.a.*").data ≠ some Category.simple_wildcard :=
  categorize_wildcard_tld_precedence ( "*.a.*").data (by decide)

/-- Counterexample to C5 as stated: the hostname string `*.a:b.*` matches
the quoted pattern (`:` and `b` are non-dot characters), yet
`categorize_domain` returns no category at all, because the pattern is
applied only to the port-stripped prefix `*.a`. -/
theorem categorize_wildcard_tld_counterexample :
    reMatchWildcardTld ( "*.a:b.*").data = true ∧
    categorize_domain ( "*.a:b.*").data = none := by decide

theorem apiAttempts_429_step (net : Nat → HttpOutcome) (ra : Option Nat) (b : Option JVal)
    (rem : Nat) (h : net 0 = HttpOutcome.resp 429 ra b) :
    apiAttempts net 0 0 (rem + 1) =
      ((apiAttempts net 1 1 rem).1,
       Event.httpRequest 0 :: Event.sleep ((ra.getD 10 : Nat) : ℚ) ::
         (apiAttempts net 1 1 rem).2) := by
  simp [apiAttempts, h]

/-- C2 (amended): on an HTTP 429 response `make_api_request` sleeps for the
`Retry-After` value (10 seconds when the header is absent) and reissues the
request, but — contrary to the claim — this retry consumes one iteration of
the same `MAX_RETRIES = 3` loop that serves network failures: after the 429
the loop continues at attempt index 1 with only `MAX_RETRIES - 1` iterations
left. -/
theorem make_api_request_429_consumes_attempt (net : Nat → HttpOutcome)
    (ra : Option Nat) (b : Option JVal) (h : net 0 = HttpOutcome.resp 429 ra b) :
    make_api_request net =
      ((apiAttempts net 1 1 (MAX_RETRIES - 1)).1,
       Event.semAcquire :: Event.httpRequest 0 ::
         Event.sleep ((ra.getD 10 : Nat) : ℚ) ::
         ((apiAttempts net 1 1 (MAX_RETRIES - 1)).2 ++ [ Event.semRelease ])) := by
  have step := apiAttempts_429_step net ra b (MAX_RETRIES - 1) h
  rw [show MAX_RETRIES - 1 + 1 = MAX_RETRIES from rfl] at step
  simp only [make_api_request, step]
  simp [List.cons_append]

/-- Witness for C2: the amended statement at the concrete network `c2Net`. -/
theorem make_api_request_429_consumes_attempt_witness :
    make_api_request c2Net =
      ((apiAttempts c2Net 1 1 (MAX_RETRIES - 1)).1,
       Event.semAcquire :: Event.httpRequest 0 :: Event.sleep ((3 : Nat) : ℚ) ::
         ((apiAttempts c2Net 1 1 (MAX_RETRIES - 1)).2 ++ [ Event.semRelease ])) :=
  make_api_request_429_consumes_attempt c2Net (some 3) none rfl

/-- Counterexample to C2 as stated: after one 429 (with `Retry-After: 3`)
and two network failures the code has exhausted its loop and returns `None`
without issuing a fourth request, whereas under the claimed semantics (the
429 retry not counting against the 3-attempt budget, as modelled by
`apiAttemptsSpec`) the call would still have one attempt left and would
return the body of request 3. -/
theorem make_api_request_429_budget_counterexample :
    (make_api_request c2Net).1 = none ∧
    apiAttemptsSpec c2Net 0 0 10 = some (JVal.str "ok") := ⟨rfl, rfl⟩

theorem processScope_ok (acc : CategorySets) (scope : JVal)
    (h : scopeEntryOk scope = true) :
    ∃ acc2, processScope acc scope = Except.ok acc2 := by
  cases scope with
  | obj fields =>
    cases hl : fields.lookup "attributes" with
    | none =>
      refine ⟨acc, ?_⟩
      simp [processScope, dictGet, hl, jvalEqStr]
    | some v =>
      cases v with
      | obj af =>
        by_cases hurl : jvalEqStr ((af.lookup "asset_type").getD JVal.null) "URL" = true
        · have hid : ∃ u, af.lookup "asset_identifier" = some (JVal.str u) := by
            simp only [scopeEntryOk, hl, hurl, if_true] at h
            cases hi : af.lookup "asset_identifier" with
            | none => rw [hi] at h; simp at h
            | some w =>
              cases w <;> rw [hi] at h <;> simp at h
              case str u => exact ⟨u, rfl⟩
          obtain ⟨u, hu⟩ := hid
          simp only [processScope, dictGet, dictGetItem, hl, Option.getD_some, hurl, if_true, hu]
          split
          · exact ⟨acc, rfl⟩
          · split
            · exact ⟨_, rfl⟩
            · exact ⟨acc, rfl⟩
        · refine ⟨acc, ?_⟩
          simp [processScope, dictGet, hl, hurl]
      | null => simp [scopeEntryOk, hl] at h
      | bool b => simp [scopeEntryOk, hl] at h
      | num n => simp [scopeEntryOk, hl] at h
      | str s => simp [scopeEntryOk, hl] at h
      | arr xs => simp [scopeEntryOk, hl] at h
  | null => simp [scopeEntryOk] at h
  | bool b => simp [scopeEntryOk] at h
  | num n => simp [scopeEntryOk] at h
  | str s => simp [scopeEntryOk] at h
  | arr xs => simp [scopeEntryOk] at h

theorem processScopes_ok (entries : List JVal) :
    ∀ acc, entries.all scopeEntryOk = true →
      ∃ r, processScopes entries acc = Except.ok r := by
  induction entries with
  | nil => intro acc _; exact ⟨acc, rfl⟩
  | cons scope rest ih =>
    intro acc hall
    simp only [List.all_cons, Bool.and_eq_true] at hall
    obtain ⟨acc2, h2⟩ := processScope_ok acc scope hall.1
    obtain ⟨r, hr⟩ := ih acc2 hall.2
    exact ⟨r, by simp [processScopes, h2, hr]⟩

theorem truthy_obj_of_lookup {fields : List (String × JVal)} {k : String} {v : JVal}
    (h : fields.lookup k = some v) : truthy (JVal.obj fields) = true := by
  cases fields with
  | nil => simp [List.lookup] at h
  | cons p rest => simp [truthy]

/-- C1 (amended): the extractor returns the three category sets without
raising on a missing handle, a `None` or falsy response, or a missing or
falsy `data` array, and more generally on every program and response that
are dictionary-shaped where accessed and whose URL-typed entries carry a
string `asset_identifier`. The claim as stated fails: a URL-typed entry
without `asset_identifier` (or with a non-string one) raises, see the
counterexample. -/
theorem extract_domains_no_raise (program : JVal) (resp : Option JVal)
    (hp : programOk program = true) (hr : respOk resp = true) :
    ∃ sets, extract_domains_from_program program resp = Except.ok sets := by
  cases program with
  | obj fields =>
    cases hl : fields.lookup "attributes" with
    | none =>
      exact ⟨emptyCategorySets,
        by simp [extract_domains_from_program, dictGet, hl, truthy]⟩
    | some v =>
      cases v with
      | obj pa =>
        by_cases hh : truthy ((pa.lookup "handle").getD JVal.null) = false
        · exact ⟨emptyCategorySets,
            by simp [extract_domains_from_program, dictGet, hl, hh]⟩
        · cases resp with
          | none =>
            exact ⟨emptyCategorySets,
              by simp [extract_domains_from_program, dictGet, hl, hh]⟩
          | some data =>
            by_cases hd : truthy data = false
            · exact ⟨emptyCategorySets,
                by simp [extract_domains_from_program, dictGet, hl, hh, hd]⟩
            · cases data with
              | obj f2 =>
                by_cases hdd : truthy ((f2.lookup "data").getD JVal.null) = false
                · exact ⟨emptyCategorySets,
                    by simp [extract_domains_from_program, dictGet, hl, hh, hd, hdd]⟩
                · have hsome : ∃ xs, f2.lookup "data" = some (JVal.arr xs) ∧
                      xs.all scopeEntryOk = true := by
                    simp only [respOk, hd, if_false, hdd] at hr
                    cases hdl : f2.lookup "data" with
                    | none => rw [hdl] at hdd; simp [truthy] at hdd
                    | some w =>
                      rw [hdl] at hr
                      cases w with
                      | arr xs => exact ⟨xs, rfl, hr⟩
                      | null => simp at hr
                      | bool b => simp at hr
                      | num n => simp at hr
                      | str s => simp at hr
                      | obj o => simp at hr
                  obtain ⟨xs, hdl, hall⟩ := hsome
                  obtain ⟨r, hrr⟩ := processScopes_ok xs emptyCategorySets hall
                  rw [hdl] at hdd
                  have hdd2 : ¬ truthy (JVal.arr xs) = false := by simpa using hdd
                  exact ⟨r, by simp [extract_domains_from_program, dictGet, dictGetItem,
                    pyIterate, hl, hh, hd, hdl, hdd2, hrr]⟩
              | null => simp [respOk, hd] at hr
              | bool b => simp [respOk, hd] at hr
              | num n => simp [respOk, hd] at hr
              | str s => simp [respOk, hd] at hr
              | arr xs => simp [respOk, hd] at hr
      | null => simp [programOk, hl] at hp
      | bool b => simp [programOk, hl] at hp
      | num n => simp [programOk, hl] at hp
      | str s => simp [programOk, hl] at hp
      | arr xs => simp [programOk, hl] at hp
  | null => simp [programOk] at hp
  | bool b => simp [programOk] at hp
  | num n => simp [programOk] at hp
  | str s => simp [programOk] at hp
  | arr xs => simp [programOk] at hp

/-- Witness for C1: the amended statement at the concrete well-shaped
program and response fixtures. -/
theorem extract_domains_no_raise_witness :
    ∃ sets, extract_domains_from_program acmeProgram (some urlScopeResp) = Except.ok sets :=
  extract_domains_no_raise acmeProgram (some urlScopeResp) (by decide) (by decide)

/-- Counterexample to C1 as stated: a scope entry with asset type `URL` but
no `asset_identifier` field makes the extractor raise `KeyError` (the code
reads `scope['attributes']['asset_identifier']` with plain subscripts)
instead of returning the three sets. -/
theorem extract_domains_missing_identifier_raises :
    extract_domains_from_program acmeProgram (some noIdScopeResp) =
      Except.error PyErr.keyError := by decide

/-- C3 (amended): for a scope entry with asset type `URL` and identifier
`https://Foo.EXAMPLE.com:443/path`, the extractor strips the scheme and the
path, lowercases and trims the remainder — but keeps the port suffix — and
stores exactly `foo.example.com:443` in the standard category set. -/
theorem extract_url_entry_normalization :
    extract_domains_from_program acmeProgram (some urlScopeResp) =
      Except.ok ⟨{ ( "foo.example.com:443").data }, ∅, ∅⟩ := by decide

/-- Counterexample to C3 as stated: the result is not the claimed singleton
`{foo.example.com}` — the stored string keeps the `:443` port, which is
stripped only for classification, not from the stored value. -/
theorem extract_url_entry_counterexample :
    extract_domains_from_program acmeProgram (some urlScopeResp) ≠
      Except.ok ⟨{ ( "foo.example.com").data }, ∅, ∅⟩ := by decide

/-- Counterexample to C4: with a fresh cache whose read fails to decode,
`fetch_all_programs` propagates the decode error and issues no request at
all — it does not fall back to a network refetch (the stub network would
have produced two pages of programs). -/
theorem fetch_cache_decode_error_counterexample :
    fetch_all_programs fsFreshBad 1000 stubPages 10 =
      some (Except.error PyErr.jsonDecodeError, fsFreshBad, []) := rfl

/-- C4 (amended): when the cache is valid (present and fresh),
`fetch_all_programs` returns the outcome of `open` plus `json.load`
unchanged — an IO or decode error propagates, with no fallback and no
requests issued; the full refetch happens exactly when the cache is invalid
(absent or stale). -/
theorem fetch_all_programs_cache_paths (fs : Fs) (now : Int)
    (pages : Nat → Option JVal) (fuel : Nat) :
    (is_cache_valid fs.cachePresent now fs.cacheMtime = true →
      fetch_all_programs fs now pages fuel = some (fs.cacheRead, fs, [])) ∧
    (is_cache_valid fs.cachePresent now fs.cacheMtime = false →
      fetch_all_programs fs now pages fuel = fetchFresh fs now pages fuel) := by
  constructor
  · intro h; simp [fetch_all_programs, h]
  · intro h; simp [fetch_all_programs, h]

/-- Witness for C4: both cache paths at concrete cache states. -/
theorem fetch_all_programs_cache_paths_witness :
    fetch_all_programs fsFreshOk 0 stubPages 10 = some (fsFreshOk.cacheRead, fsFreshOk, []) ∧
    fetch_all_programs fsAbsent 0 stubPages 10 = fetchFresh fsAbsent 0 stubPages 10 :=
  ⟨(fetch_all_programs_cache_paths fsFreshOk 0 stubPages 10).1 (by decide),
   (fetch_all_programs_cache_paths fsAbsent 0 stubPages 10).2 (by decide)⟩

/-- C6: the pagination loop stops exactly when a page yields `None` (a
failed page, treated like no data), when the page value or its `data` value
is falsy, or when the `links.next` field is absent — and otherwise continues
with the next page number; in the two-page stub scenario an invalid-cache
fetch returns exactly the 137 stub programs and requests only pages 1
and 2. -/
theorem fetch_pagination_stops (pages : Nat → Option JVal) (fuel page : Nat)
    (acc : List JVal) (reqs : List Nat) :
    (pages page = none →
      fetchLoop pages (fuel + 1) page acc reqs = some (Except.ok acc, reqs ++ [ page ])) ∧
    (∀ d, pages page = some d → truthy d = false →
      fetchLoop pages (fuel + 1) page acc reqs = some (Except.ok acc, reqs ++ [ page ])) ∧
    (∀ fields, pages page = some (JVal.obj fields) → truthy (JVal.obj fields) = true →
      truthy ((fields.lookup "data").getD JVal.null) = false →
      fetchLoop pages (fuel + 1) page acc reqs = some (Except.ok acc, reqs ++ [ page ])) ∧
    (∀ fields items, pages page = some (JVal.obj fields) →
      fields.lookup "data" = some (JVal.arr items) → truthy (JVal.arr items) = true →
      hasNextLink (JVal.obj fields) = Except.ok false →
      fetchLoop pages (fuel + 1) page acc reqs =
        some (Except.ok (acc ++ items), reqs ++ [ page ])) ∧
    (∀ fields items, pages page = some (JVal.obj fields) →
      fields.lookup "data" = some (JVal.arr items) → truthy (JVal.arr items) = true →
      hasNextLink (JVal.obj fields) = Except.ok true →
      fetchLoop pages (fuel + 1) page acc reqs =
        fetchLoop pages fuel (page + 1) (acc ++ items) (reqs ++ [ page ])) ∧
    (fetch_all_programs fsAbsent 1000 stubPages 10 =
      some (Except.ok (JVal.arr (stubItems1 ++ stubItems2)),
            { cachePresent := true, cacheMtime := 1000,
              cacheRead := Except.ok (JVal.arr (stubItems1 ++ stubItems2)) },
            [ 1, 2 ]) ∧
     (stubItems1 ++ stubItems2).length = 137) := by
  refine ⟨?_, ?_, ?_, ?_, ?_, rfl, by decide⟩
  · intro h
    simp [fetchLoop, h]
  · intro d h hd
    simp [fetchLoop, h, hd]
  · intro fields h htr hdd
    simp [fetchLoop, dictGet, h, htr, hdd]
  · intro fields items h hdl htr hnext
    have hobj := truthy_obj_of_lookup hdl
    simp [fetchLoop, dictGet, dictGetItem, pyIterate, h, hobj, hdl, htr, hnext]
  · intro fields items h hdl htr hnext
    have hobj := truthy_obj_of_lookup hdl
    simp [fetchLoop, dictGet, dictGetItem, pyIterate, h, hobj, hdl, htr, hnext]

/-- Witness for C6: each stopping condition, and the continuation case,
at concrete stub pages. -/
theorem fetch_pagination_stops_witness :
    fetchLoop wPagesNone 1 1 [] [] = some (Except.ok [], [ 1 ]) ∧
    fetchLoop wPagesFalsy 1 1 [] [] = some (Except.ok [], [ 1 ]) ∧
    fetchLoop wPagesEmptyData 1 1 [] [] = some (Except.ok [], [ 1 ]) ∧
    fetchLoop wPagesNoNext 1 1 [] [] = some (Except.ok [ JVal.num 5 ], [ 1 ]) ∧
    fetchLoop wPagesWithNext 1 1 [] [] =
      fetchLoop wPagesWithNext 0 2 [ JVal.num 7 ] [ 1 ] :=
  ⟨(fetch_pagination_stops wPagesNone 0 1 [] []).1 rfl,
   (fetch_pagination_stops wPagesFalsy 0 1 [] []).2.1 (JVal.obj []) rfl rfl,
   (fetch_pagination_stops wPagesEmptyData 0 1 [] []).2.2.1
     [ ( "data", JVal.arr []) ] rfl rfl rfl,
   (fetch_pagination_stops wPagesNoNext 0 1 [] []).2.2.2.1
     [ ( "data", JVal.arr [ JVal.num 5 ]) ] [ JVal.num 5 ] rfl rfl rfl rfl,
   (fetch_pagination_stops wPagesWithNext 0 1 [] []).2.2.2.2.1
     [ ( "data", JVal.arr [ JVal.num 7 ]),
       ( "links", JVal.obj [ ( "next", JVal.str "n") ]) ] [ JVal.num 7 ] rfl rfl rfl rfl⟩

/-- C10: after the pagination loop stops, `fetch_all_programs` writes
whatever list it accumulated to the cache file unconditionally — including
the empty list when the very first page request fails — and a subsequent
run within the 30-day freshness window returns that cached (empty or
partial) list without issuing any request. -/
theorem fetch_writes_cache_unconditionally (fs : Fs) (now now2 : Int)
    (pages pages2 : Nat → Option JVal) (fuel fuel2 : Nat)
    (acc : List JVal) (reqs : List Nat) :
    (is_cache_valid fs.cachePresent now fs.cacheMtime = false →
      fetchLoop pages fuel 1 [] [] = some (Except.ok acc, reqs) →
      fetch_all_programs fs now pages fuel =
        some (Except.ok (JVal.arr acc),
              { cachePresent := true, cacheMtime := now,
                cacheRead := Except.ok (JVal.arr acc) }, reqs)) ∧
    (fetch_all_programs fsAbsent 1000 pagesFailFirst 5 =
      some (Except.ok (JVal.arr []),
            { cachePresent := true, cacheMtime := 1000,
              cacheRead := Except.ok (JVal.arr []) }, [ 1 ])) ∧
    (now2 - now < (CACHE_EXPIRY_DAYS : Int) * 86400 →
      fetch_all_programs
        { cachePresent := true, cacheMtime := now, cacheRead := Except.ok (JVal.arr acc) }
        now2 pages2 fuel2 =
      some (Except.ok (JVal.arr acc),
            { cachePresent := true, cacheMtime := now,
              cacheRead := Except.ok (JVal.arr acc) }, [])) := by
  refine ⟨?_, rfl, ?_⟩
  · intro h hloop
    simp [fetch_all_programs, h, fetchFresh, hloop]
  · intro h
    simp [fetch_all_programs, is_cache_valid, h]

/-- Witness for C10: a run whose first page fails writes the empty list to
the cache, and a run 500 seconds later reads it back with no requests. -/
theorem fetch_writes_cache_unconditionally_witness :
    fetch_all_programs fsAbsent 1000 pagesFailFirst 5 =
      some (Except.ok (JVal.arr []),
            { cachePresent := true, cacheMtime := 1000,
              cacheRead := Except.ok (JVal.arr []) }, [ 1 ]) ∧
    fetch_all_programs
      { cachePresent := true, cacheMtime := 1000, cacheRead := Except.ok (JVal.arr []) }
      1500 pagesFailFirst 0 =
      some (Except.ok (JVal.arr []),
            { cachePresent := true, cacheMtime := 1000,
              cacheRead := Except.ok (JVal.arr []) }, []) :=
  ⟨(fetch_writes_cache_unconditionally fsAbsent 1000 1500 pagesFailFirst pagesFailFirst
      5 0 [] [ 1 ]).1 (by decide) rfl,
   (fetch_writes_cache_unconditionally fsAbsent 1000 1500 pagesFailFirst pagesFailFirst
      5 0 [] [ 1 ]).2.2 (by decide)⟩
